import Mathlib

set_option linter.unusedVariables false

/-!
Shallow embedding of the arena/allocator subsystem in
src/crates/auxmos/src/gas.rs (crate auxmos).

The concurrent Rust code is modelled as a sequential state machine: every
public operation is one atomic transition on a `World` record holding the
global arena (`GAS_MIXTURES`), its reserved capacity, the free-list channel
(`NEXT_GAS_IDS`, bounded 2000), the per-thread registration set
(`REGISTERED_GAS_MIXES`) and the host objects' pointer fields.  Lock
acquisitions have no observable effect in the sequential model except where
a claim counts them, in which case the operation also reports which slot
locks it write-acquired.  Rust panics (fail-fast lifecycle misuse) are
modelled by a distinguished `Rt.panicked` result; recoverable `Runtime`
errors by the other `Rt` constructors.
-/

/-- Volume values are opaque payload parameters (f32 in the source); the claims
never do arithmetic on them, they are only passed through, so an abstract
countable type suffices. -/
abbrev Vol := Nat

/-- Bit pattern of an f32 value, as stored into a BYOND numeric field.  Rust
guarantees f32 from-bits / to-bits are exact mutually inverse bit
reinterpretations, so an f32 used purely as a bit container is its 32-bit
pattern. -/
structure F32 where
  bits : Nat
  deriving DecidableEq

/-- Cast `usize` to `u32`, as in `idx as u32` (gas.rs lines 240, 266). -/
def usize_to_u32 (n : Nat) : Nat := n % 2 ^ 32

/-- Model of `f32::from_bits` on an already-32-bit value. -/
def f32_from_bits (b : Nat) : F32 := ⟨b⟩

/-- Model of `f32::to_bits`. -/
def F32.to_bits (x : F32) : Nat := x.bits

/-- The value register_mix stores into `_extools_pointer_gasmixture`:
`f32::from_bits(idx as u32)`. -/
def store_handle (idx : Nat) : F32 := f32_from_bits (usize_to_u32 idx)

/-- The handle recovered from the stored field: `.to_bits() as usize`
(gas.rs lines 313, 341). -/
def read_handle (x : F32) : Nat := x.to_bits

/-- Modelled from the spec: the payload type `Mixture` lives in mixture.rs,
which is not under src/; spec section 6 requires `createFromVolume`,
`resetWithVolume` (in place) and a cheap value `clone`.  `volume` holds the
volume and `content` stands for every other payload field, with 0 the
freshly-created / freshly-reset state. -/
structure Mixture where
  volume : Vol
  content : Nat
  deriving DecidableEq

/-- Modelled from the spec: `createFromVolume` builds a fresh record from a
volume. -/
def Mixture.from_vol (v : Vol) : Mixture := ⟨v, 0⟩

/-- Modelled from the spec: `resetWithVolume` resets the record in place from
a volume; no prior content survives the reset. -/
def Mixture.clear_with_vol (m : Mixture) (v : Vol) : Mixture := ⟨v, 0⟩

/-- Modelled from the spec: `Mixture::default()`, used by the background
grower's resize-with-default (gas.rs line 286). -/
def Mixture.mkDefault : Mixture := ⟨0, 0⟩

/-- Runtime results: the recoverable errors the source returns as values
(`runtime!`, named per spec section 7), plus `panicked` marking the
fail-fast panic paths (`unwrap` / `expect` on lifecycle state). -/
inductive Rt where
  | handleNotFound (id : Nat)
  | fieldTypeError
  | panicked
  deriving DecidableEq

/-- GasArena::with_gas_mixture (gas.rs lines 102-113): read-lock one slot and
run the closure on its payload; out-of-range ids give the runtime error. -/
def GasArena.with_gas_mixture {T : Type} (xs : List Mixture) (id : Nat)
    (f : Mixture → Except Rt T) : Except Rt T :=
  match xs[id]? with
  | none => Except.error (Rt.handleNotFound id)
  | some mix => f mix

/-- GasArena::with_gas_mixture_mut (gas.rs lines 119-130): write-lock one slot;
the closure returns the slot's new payload and its result. -/
def GasArena.with_gas_mixture_mut {T : Type} (xs : List Mixture) (id : Nat)
    (f : Mixture → Mixture × Except Rt T) : List Mixture × Except Rt T :=
  match xs[id]? with
  | none => (xs, Except.error (Rt.handleNotFound id))
  | some mix =>
    let out := f mix
    (xs.set id out.1, out.2)

/-- GasArena::with_gas_mixtures (gas.rs lines 136-151): read-lock two slots
(src resolved first) and run the closure on both payloads. -/
def GasArena.with_gas_mixtures {T : Type} (xs : List Mixture) (src arg : Nat)
    (f : Mixture → Mixture → Except Rt T) : Except Rt T :=
  match xs[src]? with
  | none => Except.error (Rt.handleNotFound src)
  | some src_gas =>
    match xs[arg]? with
    | none => Except.error (Rt.handleNotFound arg)
    | some arg_gas => f src_gas arg_gas

/-- GasArena::with_gas_mixtures_mut (gas.rs lines 157-185).  The closure gets
both payloads by mutable reference; in the model it returns their final
values plus its result, and the accessor reports the new arena, the list of
slot indices it write-locked, and the result.  On `src == arg` the source
takes one write lock on the single slot, clones its content into a local
`copied`, calls `f(mix, &mut copied)`, and drops `copied`: only the first
view is the slot. -/
def GasArena.with_gas_mixtures_mut {T : Type} (xs : List Mixture) (src arg : Nat)
    (f : Mixture → Mixture → Mixture × Mixture × Except Rt T) :
    List Mixture × List Nat × Except Rt T :=
  if src = arg then
    match xs[src]? with
    | none => (xs, [], Except.error (Rt.handleNotFound src))
    | some mix =>
      let copied := mix
      let out := f mix copied
      (xs.set src out.1, [src], out.2.2)
  else
    match xs[src]? with
    | none => (xs, [], Except.error (Rt.handleNotFound src))
    | some src_gas =>
      match xs[arg]? with
      | none => (xs, [src], Except.error (Rt.handleNotFound arg))
      | some arg_gas =>
        let out := f src_gas arg_gas
        ((xs.set src out.1).set arg out.2.1, [src, arg], out.2.2)

/-- GasArena::with_gas_mixtures_custom (gas.rs lines 191-215): hands the raw
per-slot locks to the closure; on `src == arg` it clones the content under a
read lock into a throwaway fresh lock.  The closure's final values for the
two cells plus its result model whatever lock level it chose to use. -/
def GasArena.with_gas_mixtures_custom {T : Type} (xs : List Mixture) (src arg : Nat)
    (f : Mixture → Mixture → Mixture × Mixture × Except Rt T) :
    List Mixture × Except Rt T :=
  if src = arg then
    match xs[src]? with
    | none => (xs, Except.error (Rt.handleNotFound src))
    | some entry =>
      let gas_copy := entry
      let out := f entry gas_copy
      (xs.set src out.1, out.2.2)
  else
    match xs[src]? with
    | none => (xs, Except.error (Rt.handleNotFound src))
    | some src_gas =>
      match xs[arg]? with
      | none => (xs, Except.error (Rt.handleNotFound arg))
      | some arg_gas =>
        let out := f src_gas arg_gas
        ((xs.set src out.1).set arg out.2.1, out.2.2)

/-- Global state of the subsystem: `GAS_MIXTURES` (with the Vec's reserved
capacity tracked alongside), `NEXT_GAS_IDS` as the queue content,
`REGISTERED_GAS_MIXES`, and the `_extools_pointer_gasmixture` field of every
host object, indexed by the object's raw id (`none` = field read fails). -/
structure World where
  arena : Option (List Mixture)
  arenaCap : Nat
  freeList : List Nat
  tracker : Option (Finset Nat)
  ptrField : Nat → Option F32

/-- is_registered_mix (gas.rs lines 44-51): allowed to run after shutdown,
`none` tracker reads as absent. -/
def is_registered_mix (w : World) (i : Nat) : Bool :=
  match w.tracker with
  | none => false
  | some t => decide (i ∈ t)

/-- register_mix free function (gas.rs lines 53-60): tracker insert; `none`
means the source would panic via `expect`. -/
def track_register_mix (w : World) (i : Nat) : Option World :=
  match w.tracker with
  | none => none
  | some t => some { w with tracker := some (insert i t) }

/-- unregister_mix free function (gas.rs lines 64-68): tracker remove,
tolerating a torn-down tracker. -/
def track_unregister_mix (w : World) (i : Nat) : World :=
  match w.tracker with
  | none => w
  | some t => { w with tracker := some (t.erase i) }

/-- mix.set of the pointer field (gas.rs lines 238-241, 264-267). -/
def set_ptr (w : World) (i : Nat) (x : F32) : World :=
  { w with ptrField := fun j => if j = i then some x else w.ptrField j }

/-- crossbeam_channel::bounded(2000) (gas.rs line 36). -/
def channel_capacity : Nat := 2000

/-- Rust Vec reserved-capacity growth: unchanged while the needed length
fits, otherwise amortized reallocation.  Only cap >= needed matters to any
claim; the doubling mirrors the usual amortized policy. -/
def vec_grow_cap (cap needed : Nat) : Nat :=
  if needed ≤ cap then cap else max (2 * cap) needed

/-- The grower's batch size (gas.rs lines 275-282): capped at the channel
capacity minus 100, further capped at the Vec's remaining reserved capacity
`to_cap` unless that is zero, in which case the margin-capped amount is used
as is. -/
def grow_amount (cur_last cap : Nat) : Nat :=
  if cap - cur_last = 0 then channel_capacity - 100
  else min (channel_capacity - 100) (cap - cur_last)

/-- The rayon task spawned at the end of GasArena::register_mix (gas.rs lines
270-288): if the channel is still empty, publish the next `grow_amount`
indices into it and resize the arena to cover them, under the structural
write lock. -/
def background_grower (w : World) : World :=
  match w.arena with
  | none => w
  | some gas_mixtures =>
    if w.freeList.isEmpty then
      let cur_last := gas_mixtures.length
      let cap := grow_amount cur_last w.arenaCap
      { w with
          arena := some (gas_mixtures ++ List.replicate cap Mixture.mkDefault),
          arenaCap := vec_grow_cap w.arenaCap (cur_last + cap),
          freeList := w.freeList ++ (List.range cap).map (fun j => cur_last + j) }
    else w

/-- GasArena::register_mix, synchronous part (gas.rs lines 222-269): `i` is the
host object's raw id, `v` the result of reading `initial_volume` (`none` =
non-number, the `map_err` path).  Channel empty: structural write lock,
append `Mixture::from_vol`, store the new index's bit pattern, track.
Channel non-empty: pop one index first, then resolve the slot (unwrap), then
read the volume, reset the slot in place, store the popped index's bit
pattern, track.  Each `?` keeps the side effects already performed. -/
def GasArena.register_mix (w : World) (i : Nat) (v : Option Vol) :
    World × Except Rt Unit :=
  match w.freeList with
  | [] =>
    match w.arena with
    | none => (w, Except.error Rt.panicked)
    | some gas_mixtures =>
      match v with
      | none => (w, Except.error Rt.fieldTypeError)
      | some vol =>
        let next_idx := gas_mixtures.length
        let w1 := { w with
          arena := some (gas_mixtures ++ [Mixture.from_vol vol]),
          arenaCap := vec_grow_cap w.arenaCap (next_idx + 1) }
        let w2 := set_ptr w1 i (store_handle next_idx)
        match track_register_mix w2 i with
        | none => (w2, Except.error Rt.panicked)
        | some w3 => (w3, Except.ok ())
  | idx :: rest =>
    let w1 := { w with freeList := rest }
    match w1.arena with
    | none => (w1, Except.error Rt.panicked)
    | some gas_mixtures =>
      match gas_mixtures[idx]? with
      | none => (w1, Except.error Rt.panicked)
      | some mix =>
        match v with
        | none => (w1, Except.error Rt.fieldTypeError)
        | some vol =>
          let w2 := { w1 with
            arena := some (gas_mixtures.set idx (mix.clear_with_vol vol)) }
          let w3 := set_ptr w2 i (store_handle idx)
          match track_register_mix w3 i with
          | none => (w3, Except.error Rt.panicked)
          | some w4 => (w4, Except.ok ())

/-- GasArena::unregister_mix (gas.rs lines 295-321): guarded by
is_registered_mix; reads the stored pointer field (skipping everything if
the read fails), pushes the recovered index onto the channel and removes the
id from the tracker.  Total: it never returns an error. -/
def GasArena.unregister_mix (w : World) (i : Nat) : World :=
  if is_registered_mix w i then
    match w.ptrField i with
    | none => w
    | some x =>
      let w1 := { w with freeList := w.freeList ++ [read_handle x] }
      track_unregister_mix w1 i
  else w

/-- _initialize_gas_mixtures (gas.rs lines 70-75): fresh empty Vec with
240000 reserved capacity, fresh empty tracker; the channel is untouched. -/
def init_gas_mixtures (w : World) : World :=
  { w with arena := some [], arenaCap := 240000, tracker := some ∅ }

/-- _shut_down_gases (gas.rs lines 77-85): clear the arena (capacity kept),
drain the channel, invalidate the tracker.  The source unwraps the arena;
the `none` branch is the panic path, never taken on initialized worlds. -/
def shut_down_gases (w : World) : World :=
  match w.arena with
  | none => w
  | some _ => { w with arena := some [], freeList := [], tracker := none }

/-- tot_gases (gas.rs lines 474-476); `none` is the panic path. -/
def tot_gases (w : World) : Nat :=
  match w.arena with
  | none => 0
  | some xs => xs.length

/-- amt_gases (gas.rs lines 470-472): arena length minus channel length, in
unsigned arithmetic; `none` is the panic path. -/
def amt_gases (w : World) : Nat :=
  match w.arena with
  | none => 0
  | some xs => xs.length - w.freeList.length

/-- Process start: no arena, empty channel, no tracker, arbitrary host
objects. -/
def World.pristine (pf : Nat → Option F32) : World :=
  { arena := none, arenaCap := 0, freeList := [], tracker := none, ptrField := pf }

/-- One observable transition.  Registration and the grower need an
initialized arena and tracker (the source panics otherwise, and BYOND only
calls them between init and shutdown; shutdown waits for spawned grower
tasks before tearing down, so no grower runs with a `none` tracker).
Unregistration may run in any lifecycle state. -/
inductive Step : World → World → Prop where
  | init_world (w : World) (h : w.tracker = none) : Step w (init_gas_mixtures w)
  | register (w : World) (i : Nat) (v : Option Vol)
      (ha : w.arena.isSome = true) (ht : w.tracker.isSome = true) :
      Step w (GasArena.register_mix w i v).1
  | grower (w : World) (ha : w.arena.isSome = true) (ht : w.tracker.isSome = true) :
      Step w (background_grower w)
  | unregister (w : World) (i : Nat) : Step w (GasArena.unregister_mix w i)
  | shutdown (w : World) (ha : w.arena.isSome = true) : Step w (shut_down_gases w)

/-- Worlds observable between complete operations. -/
inductive Reachable : World → Prop where
  | base (pf : Nat → Option F32) : Reachable (World.pristine pf)
  | step (w w2 : World) (hr : Reachable w) (hs : Step w w2) : Reachable w2

/-! Helper lemmas shared by several claims. -/

/-- Storing a handle's bit pattern and reading it back is the identity below
2^32. -/
theorem read_store (h : Nat) (hh : h < 2 ^ 32) :
    read_handle (store_handle h) = h :=
  Nat.mod_eq_of_lt hh

/-- The stored bit pattern never exceeds the handle it encodes. -/
theorem store_bits_le (h : Nat) : (store_handle h).bits ≤ h := by
  simpa [store_handle, f32_from_bits, usize_to_u32] using Nat.mod_le h (2 ^ 32)

/-- Slow-path registration, fully reduced (channel empty, live tracker). -/
theorem register_mix_slow (xs : List Mixture) (cap : Nat) (t : Finset Nat)
    (pf : Nat → Option F32) (i : Nat) (vol : Vol) :
    GasArena.register_mix ⟨some xs, cap, [], some t, pf⟩ i (some vol)
      = (⟨some (xs ++ [Mixture.from_vol vol]), vec_grow_cap cap (xs.length + 1),
          [], some (insert i t),
          fun j => if j = i then some (store_handle xs.length) else pf j⟩,
         Except.ok ()) := rfl

/-- Fast-path registration, fully reduced (channel non-empty, slot present,
live tracker). -/
theorem register_mix_fast (xs : List Mixture) (cap idx : Nat) (rest : List Nat)
    (t : Finset Nat) (pf : Nat → Option F32) (i : Nat) (vol : Vol) (m : Mixture)
    (hm : xs[idx]? = some m) :
    GasArena.register_mix ⟨some xs, cap, idx :: rest, some t, pf⟩ i (some vol)
      = (⟨some (xs.set idx (m.clear_with_vol vol)), cap, rest, some (insert i t),
          fun j => if j = i then some (store_handle idx) else pf j⟩,
         Except.ok ()) := by
  unfold GasArena.register_mix
  simp [hm, set_ptr, track_register_mix]

/-- C2: withTwoMut on one handle twice takes a single write lock on that slot,
passes the callback the original payload and a by-value clone of it, and the
slot's stored content afterwards is exactly what the callback left in the
first (original) view — changes to the second (cloned) view never reach the
slot unless the callback itself copies them into the first view. -/
theorem with_two_mut_self_alias {T : Type} (xs : List Mixture) (x : Nat) (m : Mixture)
    (f : Mixture → Mixture → Mixture × Mixture × Except Rt T)
    (hm : xs[x]? = some m) :
    GasArena.with_gas_mixtures_mut xs x x f
      = (xs.set x (f m m).1, [x], (f m m).2.2)
    ∧ (∀ g : Mixture → Mixture → Mixture × Mixture × Except Rt T,
        (g m m).1 = (f m m).1 →
        (GasArena.with_gas_mixtures_mut xs x x g).1
          = (GasArena.with_gas_mixtures_mut xs x x f).1) := by
  constructor
  · simp [GasArena.with_gas_mixtures_mut, hm]
  · intro g hg
    simp [GasArena.with_gas_mixtures_mut, hm, hg]

/-- C2 witness: the aliased dual write accessor at a concrete slot; the second
view is mutated to ⟨9, 9⟩ but the stored slot only reflects the first view. -/
theorem with_two_mut_self_alias_witness :
    GasArena.with_gas_mixtures_mut [Mixture.from_vol 5] 0 0
        (fun a b => (Mixture.mk (a.volume + b.volume) 1, Mixture.mk 9 9, Except.ok 3))
      = ([Mixture.mk 10 1], [0], Except.ok 3) := by
  rw [(with_two_mut_self_alias [Mixture.from_vol 5] 0 (Mixture.from_vol 5)
    (fun a b => (Mixture.mk (a.volume + b.volume) 1, Mixture.mk 9 9, Except.ok 3)) rfl).1]
  rfl

/-- C8: a handle issued by the arena (a usize below 2^32) round-trips exactly
through the host object's float field: writing `f32::from_bits(idx as u32)`
and reading back `.to_bits() as usize` returns the original handle. -/
theorem handle_bit_roundtrip (h : Nat) (hh : h < 2 ^ 32) :
    read_handle (store_handle h) = h :=
  read_store h hh

/-- C8 witness. -/
theorem handle_bit_roundtrip_witness : read_handle (store_handle 57) = 57 :=
  handle_bit_roundtrip 57 (by norm_num)

/-- C6: every accessor of the facade, given an out-of-range handle, returns
the HandleNotFound runtime error as a value without consulting the callback
(the result is the same for every callback), and mutating accessors leave
the arena unchanged. -/
theorem accessors_out_of_range (xs : List Mixture) (id : Nat)
    (hid : xs.length ≤ id) :
    (∀ (T : Type) (f : Mixture → Except Rt T),
      GasArena.with_gas_mixture xs id f = Except.error (Rt.handleNotFound id))
    ∧ (∀ (T : Type) (f : Mixture → Mixture × Except Rt T),
      GasArena.with_gas_mixture_mut xs id f
        = (xs, Except.error (Rt.handleNotFound id)))
    ∧ (∀ (T : Type) (arg : Nat) (f : Mixture → Mixture → Except Rt T),
      GasArena.with_gas_mixtures xs id arg f = Except.error (Rt.handleNotFound id))
    ∧ (∀ (T : Type) (arg : Nat) (f : Mixture → Mixture → Mixture × Mixture × Except Rt T),
      GasArena.with_gas_mixtures_mut xs id arg f
        = (xs, [], Except.error (Rt.handleNotFound id)))
    ∧ (∀ (T : Type) (arg : Nat) (f : Mixture → Mixture → Mixture × Mixture × Except Rt T),
      GasArena.with_gas_mixtures_custom xs id arg f
        = (xs, Except.error (Rt.handleNotFound id))) := by
  have hnone : xs[id]? = none := by
    simp [List.getElem?_eq_none_iff, hid]
  refine ⟨?_, ?_, ?_, ?_, ?_⟩
  · intro T f; simp [GasArena.with_gas_mixture, hnone]
  · intro T f; simp [GasArena.with_gas_mixture_mut, hnone]
  · intro T arg f; simp [GasArena.with_gas_mixtures, hnone]
  · intro T arg f
    by_cases h : id = arg
    · subst h; simp [GasArena.with_gas_mixtures_mut, hnone]
    · simp [GasArena.with_gas_mixtures_mut, hnone, h]
  · intro T arg f
    by_cases h : id = arg
    · subst h; simp [GasArena.with_gas_mixtures_custom, hnone]
    · simp [GasArena.with_gas_mixtures_custom, hnone, h]

/-- C6 witness: accessing handle 2 of a one-slot arena. -/
theorem accessors_out_of_range_witness :
    GasArena.with_gas_mixture [Mixture.from_vol 1] 2 (fun m => Except.ok m.volume)
      = Except.error (Rt.handleNotFound 2)
    ∧ GasArena.with_gas_mixtures [Mixture.from_vol 1] 2 0 (fun a b => Except.ok a.volume)
      = Except.error (Rt.handleNotFound 2) := by
  have h := accessors_out_of_range [Mixture.from_vol 1] 2 (by norm_num)
  exact ⟨h.1 Nat (fun m => Except.ok m.volume), h.2.2.1 Nat 0 (fun a b => Except.ok a.volume)⟩

/-- C7: unregistration is total and never errors; an identifier absent from
the tracker (unknown, already unregistered, or tracker invalidated) is a
silent no-op leaving the state untouched, unregistering twice equals
unregistering once, and after shutdown every unregistration is a no-op. -/
theorem unregister_silent_idempotent (w : World) (i : Nat) :
    (is_registered_mix w i = false → GasArena.unregister_mix w i = w)
    ∧ GasArena.unregister_mix (GasArena.unregister_mix w i) i
        = GasArena.unregister_mix w i
    ∧ (∀ xs, w.arena = some xs →
        GasArena.unregister_mix (shut_down_gases w) i = shut_down_gases w) := by
  obtain ⟨a, cap, fl, tr, pf⟩ := w
  refine ⟨?_, ?_, ?_⟩
  · intro hreg
    simp [GasArena.unregister_mix, hreg]
  · by_cases hreg : is_registered_mix ⟨a, cap, fl, tr, pf⟩ i = true
    · rcases tr with _ | t
      · simp [is_registered_mix] at hreg
      · have hmem : i ∈ t := by simpa [is_registered_mix] using hreg
        rcases hpf : pf i with _ | x
        · simp [GasArena.unregister_mix, is_registered_mix, hmem, hpf]
        · simp [GasArena.unregister_mix, is_registered_mix, hmem, hpf,
            track_unregister_mix, Finset.not_mem_erase]
    · have hreg2 : is_registered_mix ⟨a, cap, fl, tr, pf⟩ i = false := by
        simpa using hreg
      simp [GasArena.unregister_mix, hreg2]
  · intro xs ha
    cases a with
    | none => cases ha
    | some ys =>
      simp [shut_down_gases, GasArena.unregister_mix, is_registered_mix]

/-- C7 witness: unregistering an unknown identifier at process start is a
no-op, and so is unregistering after a shutdown. -/
theorem unregister_silent_idempotent_witness :
    GasArena.unregister_mix (World.pristine fun _ => none) 7
      = World.pristine (fun _ => none)
    ∧ GasArena.unregister_mix
        (shut_down_gases (init_gas_mixtures (World.pristine fun _ => none))) 7
      = shut_down_gases (init_gas_mixtures (World.pristine fun _ => none)) := by
  refine ⟨(unregister_silent_idempotent (World.pristine fun _ => none) 7).1 rfl, ?_⟩
  exact (unregister_silent_idempotent
    (init_gas_mixtures (World.pristine fun _ => none)) 7).2.2 [] rfl

/-- Fast-path registration with a failing volume read, fully reduced. -/
theorem register_mix_fast_none (xs : List Mixture) (cap idx : Nat)
    (rest : List Nat) (tr : Option (Finset Nat)) (pf : Nat → Option F32) (i : Nat)
    (hidx : idx < xs.length) :
    GasArena.register_mix ⟨some xs, cap, idx :: rest, tr, pf⟩ i none
      = (⟨some xs, cap, rest, tr, pf⟩, Except.error Rt.fieldTypeError) := by
  have hm : xs[idx]? = some xs[idx] := List.getElem?_eq_getElem hidx
  unfold GasArena.register_mix
  simp [hm]

/-- C9: a fast-path registration whose volume read fails returns the error
only after the handle has already been popped: the free list has lost its
head, yet the identifier is not bound (pointer fields and tracker are
untouched), the slot is untouched, and the handle is not pushed back. -/
theorem fast_path_error_drops_handle (xs : List Mixture) (cap idx : Nat)
    (rest : List Nat) (tr : Option (Finset Nat)) (pf : Nat → Option F32) (i : Nat)
    (hidx : idx < xs.length) :
    GasArena.register_mix ⟨some xs, cap, idx :: rest, tr, pf⟩ i none
      = (⟨some xs, cap, rest, tr, pf⟩, Except.error Rt.fieldTypeError) :=
  register_mix_fast_none xs cap idx rest tr pf i hidx

/-- C9 witness: one slot, free list [0], failing volume read. -/
theorem fast_path_error_drops_handle_witness :
    GasArena.register_mix ⟨some [Mixture.from_vol 4], 9, [0], some ∅, fun _ => none⟩ 3 none
      = (⟨some [Mixture.from_vol 4], 9, [], some ∅, fun _ => none⟩,
         Except.error Rt.fieldTypeError) :=
  fast_path_error_drops_handle [Mixture.from_vol 4] 9 0 [] (some ∅)
    (fun _ => none) 3 (by norm_num)

/-- A grower run on an empty channel, fully reduced. -/
theorem background_grower_empty (xs : List Mixture) (cap : Nat)
    (tr : Option (Finset Nat)) (pf : Nat → Option F32) :
    background_grower ⟨some xs, cap, [], tr, pf⟩
      = ⟨some (xs ++ List.replicate (grow_amount xs.length cap) Mixture.mkDefault),
         vec_grow_cap cap (xs.length + grow_amount xs.length cap),
         (List.range (grow_amount xs.length cap)).map (fun j => xs.length + j),
         tr, pf⟩ := rfl

/-- A state in which the arena has exhausted its pre-reserved capacity and
the channel is empty, as seen by a grower run. -/
def full_cap_world : World :=
  { arena := some [], arenaCap := 0,
    freeList := [], tracker := some ∅, ptrField := fun _ => none }

/-- C1 counterexample: with zero remaining pre-reserved capacity the grower
appends 1900 slots — not zero — so the appended count is not bounded by the
remaining pre-reserved Arena capacity in the zero case. -/
theorem grower_zero_cap_counterexample :
    full_cap_world.arenaCap - tot_gases full_cap_world = 0
    ∧ tot_gases (background_grower full_cap_world) - tot_gases full_cap_world = 1900
    ∧ ¬(tot_gases (background_grower full_cap_world) - tot_gases full_cap_world
        ≤ full_cap_world.arenaCap - tot_gases full_cap_world) := by
  have e : tot_gases (background_grower full_cap_world) = 1900 := by
    rw [show full_cap_world
        = (⟨some [], 0, [], some ∅, fun _ => none⟩ : World) from rfl,
      background_grower_empty]
    show (([] : List Mixture)
      ++ List.replicate (grow_amount 0 0) Mixture.mkDefault).length = 1900
    rw [List.nil_append, List.length_replicate]
    rfl
  refine ⟨rfl, ?_, ?_⟩
  · rw [e]; rfl
  · rw [e]; decide

/-- C1 amended: a grower run on an empty channel appends and publishes
exactly `grow_amount` handles; that amount is bounded by the channel's
remaining capacity, and bounded by the remaining pre-reserved Arena capacity
whenever that remainder is nonzero — but when the remainder is zero the
grower instead appends `channel_capacity - 100` slots, growing the arena
past its pre-reserved capacity. -/
theorem grower_bounds (w : World) (xs : List Mixture)
    (ha : w.arena = some xs) (hfl : w.freeList = []) :
    tot_gases (background_grower w) = xs.length + grow_amount xs.length w.arenaCap
    ∧ (background_grower w).freeList.length = grow_amount xs.length w.arenaCap
    ∧ grow_amount xs.length w.arenaCap ≤ channel_capacity - w.freeList.length
    ∧ (w.arenaCap - xs.length ≠ 0 →
        grow_amount xs.length w.arenaCap ≤ w.arenaCap - xs.length)
    ∧ (w.arenaCap - xs.length = 0 →
        grow_amount xs.length w.arenaCap = channel_capacity - 100) := by
  obtain ⟨a, cap, fl, tr, pf⟩ := w
  cases ha
  cases hfl
  rw [background_grower_empty]
  refine ⟨?_, ?_, ?_, ?_, ?_⟩
  · simp [tot_gases]
  · simp
  · show grow_amount xs.length cap ≤ channel_capacity - 0
    unfold grow_amount channel_capacity
    split <;> omega
  · intro hne
    have hne2 : cap - xs.length ≠ 0 := hne
    show grow_amount xs.length cap ≤ cap - xs.length
    unfold grow_amount
    rw [if_neg hne2]
    exact min_le_right _ _
  · intro hz
    have hz2 : cap - xs.length = 0 := hz
    show grow_amount xs.length cap = channel_capacity - 100
    unfold grow_amount
    rw [if_pos hz2]

/-- C1 amended witness: a grower run from the freshly initialized world
appends 1900 slots, within both bounds. -/
theorem grower_bounds_witness :
    tot_gases (background_grower (init_gas_mixtures (World.pristine fun _ => none)))
      = 0 + grow_amount 0 240000
    ∧ grow_amount 0 240000 ≤ channel_capacity - 0
    ∧ (240000 - 0 ≠ 0 → grow_amount 0 240000 ≤ 240000 - 0) := by
  have h := grower_bounds (init_gas_mixtures (World.pristine fun _ => none)) [] rfl rfl
  exact ⟨h.1, h.2.2.1, h.2.2.2.1⟩

/-- C3: a slow-path registration (empty channel) appends exactly one slot
built from the supplied volume, binds the identifier to the pre-append arena
length (stored bit-exactly and reading back to that length), and in
particular the first registration after initialization is assigned
handle 0. -/
theorem register_slow_appends_one (xs : List Mixture) (cap : Nat) (t : Finset Nat)
    (pf : Nat → Option F32) (i : Nat) (vol : Vol) (hlen : xs.length < 2 ^ 32) :
    (GasArena.register_mix ⟨some xs, cap, [], some t, pf⟩ i (some vol)).2
        = Except.ok ()
    ∧ (GasArena.register_mix ⟨some xs, cap, [], some t, pf⟩ i (some vol)).1.arena
        = some (xs ++ [Mixture.from_vol vol])
    ∧ tot_gases (GasArena.register_mix ⟨some xs, cap, [], some t, pf⟩ i (some vol)).1
        = xs.length + 1
    ∧ (GasArena.register_mix ⟨some xs, cap, [], some t, pf⟩ i (some vol)).1.ptrField i
        = some (store_handle xs.length)
    ∧ read_handle (store_handle xs.length) = xs.length
    ∧ (GasArena.register_mix ⟨some xs, cap, [], some t, pf⟩ i (some vol)).1.tracker
        = some (insert i t)
    ∧ (∀ (g : Nat → Option F32) (j : Nat) (v2 : Vol),
        (GasArena.register_mix (init_gas_mixtures (World.pristine g)) j
            (some v2)).1.ptrField j
          = some (store_handle 0)) := by
  rw [register_mix_slow]
  refine ⟨rfl, rfl, by simp [tot_gases], by simp, read_store _ hlen, rfl, ?_⟩
  intro g j v2
  show (GasArena.register_mix ⟨some [], 240000, [], some ∅, g⟩ j (some v2)).1.ptrField j
    = some (store_handle 0)
  rw [register_mix_slow]
  simp

/-- C3 witness: scenario A, first registration after initialization. -/
theorem register_slow_appends_one_witness :
    (GasArena.register_mix ⟨some [], 240000, [], some ∅, fun _ => none⟩ 1 (some 5)).1.ptrField 1
        = some (store_handle 0)
    ∧ read_handle (store_handle 0) = 0
    ∧ tot_gases (GasArena.register_mix ⟨some [], 240000, [], some ∅, fun _ => none⟩ 1
        (some 5)).1 = 1 := by
  have h := register_slow_appends_one [] 240000 ∅ (fun _ => none) 1 5 (by norm_num)
  exact ⟨h.2.2.2.1, h.2.2.2.2.1, h.2.2.1⟩

/-- C4: a fast-path registration (non-empty channel) pops exactly the head
handle, resets that slot in place from the supplied volume — leaving no
residue, the reset content equals a freshly created record — binds the
identifier to the popped handle, and changes no arena structure (same
length, no append). -/
theorem register_fast_reuses_handle (xs : List Mixture) (cap idx : Nat)
    (rest : List Nat) (t : Finset Nat) (pf : Nat → Option F32) (i : Nat)
    (vol : Vol) (m : Mixture) (hm : xs[idx]? = some m) :
    GasArena.register_mix ⟨some xs, cap, idx :: rest, some t, pf⟩ i (some vol)
      = (⟨some (xs.set idx (m.clear_with_vol vol)), cap, rest, some (insert i t),
          fun j => if j = i then some (store_handle idx) else pf j⟩,
         Except.ok ())
    ∧ m.clear_with_vol vol = Mixture.from_vol vol
    ∧ (xs.set idx (m.clear_with_vol vol)).length = xs.length := by
  exact ⟨register_mix_fast xs cap idx rest t pf i vol m hm, rfl, by simp⟩

/-- C4 witness: scenario B then C — unregister identifier 1 holding handle 0,
then register identifier 2 with volume 3: handle 0 is reused and the slot is
exactly a fresh volume-3 record with no residue from the earlier session. -/
theorem register_fast_reuses_handle_witness :
    GasArena.unregister_mix
        ⟨some [Mixture.mk 5 7], 9, [], some (insert 1 (∅ : Finset Nat)), fun j =>
          if j = 1 then some (store_handle 0) else none⟩ 1
      = ⟨some [Mixture.mk 5 7], 9, [0],
          some ((insert 1 (∅ : Finset Nat)).erase 1), fun j =>
          if j = 1 then some (store_handle 0) else none⟩
    ∧ GasArena.register_mix
        ⟨some [Mixture.mk 5 7], 9, [0], some ∅, fun _ => none⟩ 2 (some 3)
      = (⟨some [Mixture.from_vol 3], 9, [], some (insert 2 ∅),
          fun j => if j = 2 then some (store_handle 0) else none⟩,
         Except.ok ()) := by
  constructor
  · simp [GasArena.unregister_mix, is_registered_mix, track_unregister_mix,
      read_handle, store_handle, f32_from_bits, usize_to_u32, F32.to_bits]
  · have h := register_fast_reuses_handle [Mixture.mk 5 7] 9 0 [] ∅
      (fun _ => none) 2 3 (Mixture.mk 5 7) rfl
    rw [h.1]
    rfl

/-! The allocator invariant: machinery for the observation-point claims. -/

/-- Number of live registrations as the channel bookkeeping counts them. -/
def tracker_card (w : World) : Nat := (w.tracker.getD ∅).card

/-- Invariant maintained at every observation point: a torn-down world has an
empty channel; every published handle is in range; live registrations plus
free handles never outnumber the slots; every tracked identifier's stored
bit pattern decodes below the arena length. -/
structure ArenaInv (w : World) : Prop where
  arena_none : w.arena = none → w.tracker = none
  tracker_gone : w.tracker = none → w.freeList = []
  free_lt : ∀ xs, w.arena = some xs → ∀ h ∈ w.freeList, h < xs.length
  count : ∀ xs, w.arena = some xs → w.freeList.length + tracker_card w ≤ xs.length
  ptr_lt : ∀ xs, w.arena = some xs → ∀ t, w.tracker = some t →
    ∀ i ∈ t, ∀ x, w.ptrField i = some x → x.bits < xs.length

theorem inv_pristine (pf : Nat → Option F32) : ArenaInv (World.pristine pf) := by
  refine ⟨fun _ => rfl, fun _ => rfl, ?_, ?_, ?_⟩ <;> intro xs hxs <;> cases hxs

theorem inv_init (w : World) (hw : ArenaInv w) (h : w.tracker = none) :
    ArenaInv (init_gas_mixtures w) := by
  have hfl : w.freeList = [] := hw.tracker_gone h
  constructor
  · intro hx; cases hx
  · intro hx; cases hx
  · intro xs hxs hh hmem
    rw [show (init_gas_mixtures w).freeList = w.freeList from rfl, hfl] at hmem
    cases hmem
  · intro xs hxs
    cases hxs
    simp [init_gas_mixtures, tracker_card, hfl]
  · intro xs hxs t ht j hj y hy
    cases hxs
    cases ht
    exact absurd hj (Finset.not_mem_empty j)

theorem inv_shutdown (w : World) (hw : ArenaInv w) : ArenaInv (shut_down_gases w) := by
  obtain ⟨a, cap, fl, tr, pf⟩ := w
  rcases a with _ | xs
  · exact hw
  · constructor
    · intro hx; cases hx
    · intro _; rfl
    · intro ys hys hh hmem; cases hmem
    · intro ys hys; cases hys; simp [shut_down_gases, tracker_card]
    · intro ys hys t ht; cases ht

theorem inv_unregister (w : World) (i : Nat) (hw : ArenaInv w) :
    ArenaInv (GasArena.unregister_mix w i) := by
  by_cases hreg : is_registered_mix w i = true
  case neg =>
    have heq : GasArena.unregister_mix w i = w := by
      simp at hreg
      simp [GasArena.unregister_mix, hreg]
    rw [heq]; exact hw
  case pos =>
    obtain ⟨a, cap, fl, tr, pf⟩ := w
    rcases tr with _ | t
    · simp [is_registered_mix] at hreg
    · have hmem : i ∈ t := by simpa [is_registered_mix] using hreg
      rcases hpf : pf i with _ | x
      · have heq : GasArena.unregister_mix ⟨a, cap, fl, some t, pf⟩ i
            = ⟨a, cap, fl, some t, pf⟩ := by
          simp [GasArena.unregister_mix, is_registered_mix, hmem, hpf]
        rw [heq]; exact hw
      · have heq : GasArena.unregister_mix ⟨a, cap, fl, some t, pf⟩ i
            = ⟨a, cap, fl ++ [x.bits], some (t.erase i), pf⟩ := by
          simp [GasArena.unregister_mix, is_registered_mix, hmem, hpf,
            track_unregister_mix, read_handle, F32.to_bits]
        rw [heq]
        rcases a with _ | xs
        · exact absurd (hw.arena_none rfl) (by simp)
        · constructor
          · intro hx; cases hx
          · intro hx; cases hx
          · intro ys hys hh hmemfl
            cases hys
            rcases List.mem_append.mp hmemfl with hin | hin
            · exact hw.free_lt _ rfl hh hin
            · have hbits : hh = x.bits := by simpa using hin
              subst hbits
              exact hw.ptr_lt _ rfl t rfl i hmem x hpf
          · intro ys hys
            cases hys
            have h1 := hw.count _ rfl
            have hcard := Finset.card_erase_of_mem hmem
            have hpos : 0 < t.card := Finset.card_pos.mpr ⟨i, hmem⟩
            simp only [tracker_card, Option.getD] at h1 ⊢
            simp only [List.length_append, List.length_singleton]
            omega
          · intro ys hys t2 ht2 j hj y hy
            cases hys; cases ht2
            exact hw.ptr_lt _ rfl t rfl j (Finset.mem_of_mem_erase hj) y hy

theorem inv_grower (w : World) (hw : ArenaInv w) (ht : w.tracker.isSome = true) :
    ArenaInv (background_grower w) := by
  obtain ⟨a, cap, fl, tr, pf⟩ := w
  rcases a with _ | xs
  · exact hw
  · rcases fl with _ | ⟨f0, fl⟩
    · rw [background_grower_empty]
      rcases tr with _ | t
      · simp at ht
      · constructor
        · intro hx; cases hx
        · intro hx; cases hx
        · intro ys hys hh hmem
          cases hys
          rcases List.mem_map.mp hmem with ⟨j, hj, hje⟩
          have hjlt := List.mem_range.mp hj
          subst hje
          simp only [List.length_append, List.length_replicate]
          omega
        · intro ys hys
          cases hys
          have h1 := hw.count _ rfl
          simp only [tracker_card, Option.getD] at h1 ⊢
          simp only [List.length_map, List.length_range, List.length_append,
            List.length_replicate, List.length_nil] at h1 ⊢
          omega
        · intro ys hys t2 ht2 j hj y hy
          cases hys; cases ht2
          have hlt := hw.ptr_lt _ rfl t rfl j hj y hy
          simp only [List.length_append, List.length_replicate]
          omega
    · have heq : background_grower ⟨some xs, cap, f0 :: fl, tr, pf⟩
          = ⟨some xs, cap, f0 :: fl, tr, pf⟩ := by
        simp [background_grower]
      rw [heq]; exact hw

theorem inv_register (w : World) (i : Nat) (v : Option Vol) (hw : ArenaInv w)
    (ha : w.arena.isSome = true) (ht : w.tracker.isSome = true) :
    ArenaInv (GasArena.register_mix w i v).1 := by
  obtain ⟨a, cap, fl, tr, pf⟩ := w
  rcases a with _ | xs
  · simp at ha
  rcases tr with _ | t
  · simp at ht
  rcases fl with _ | ⟨idx, rest⟩
  · rcases v with _ | vol
    · exact hw
    · rw [register_mix_slow]
      constructor
      · intro hx; cases hx
      · intro hx; cases hx
      · intro ys hys hh hmem; cases hmem
      · intro ys hys
        cases hys
        have h1 := hw.count _ rfl
        have hcard := Finset.card_insert_le i t
        simp only [tracker_card, Option.getD] at h1 ⊢
        simp only [List.length_append, List.length_singleton, List.length_nil] at h1 ⊢
        omega
      · intro ys hys t2 ht2 j hj y hy
        cases hys; cases ht2
        by_cases hji : j = i
        · subst hji
          have hy2 : (if j = j then some (store_handle xs.length) else pf j) = some y := hy
          rw [if_pos rfl, Option.some_inj] at hy2
          subst hy2
          have hble := store_bits_le xs.length
          simp only [List.length_append, List.length_singleton]
          omega
        · have hj2 : j ∈ t := by
            rcases Finset.mem_insert.mp hj with hcase | hcase
            · exact absurd hcase hji
            · exact hcase
          have hy2 : pf j = some y := by simpa [hji] using hy
          have hlt := hw.ptr_lt _ rfl t rfl j hj2 y hy2
          simp only [List.length_append, List.length_singleton]
          omega
  · have hidx : idx < xs.length := hw.free_lt xs rfl idx (by simp)
    have hget : xs[idx]? = some xs[idx] := List.getElem?_eq_getElem hidx
    rcases v with _ | vol
    · have heq : (GasArena.register_mix ⟨some xs, cap, idx :: rest, some t, pf⟩ i none).1
          = ⟨some xs, cap, rest, some t, pf⟩ := by
        rw [register_mix_fast_none xs cap idx rest (some t) pf i hidx]
      rw [heq]
      constructor
      · intro hx; cases hx
      · intro hx; cases hx
      · intro ys hys hh hmem
        cases hys
        exact hw.free_lt _ rfl hh (List.mem_cons_of_mem idx hmem)
      · intro ys hys
        cases hys
        have h1 := hw.count _ rfl
        simp only [tracker_card, Option.getD] at h1 ⊢
        simp only [List.length_cons] at h1
        omega
      · intro ys hys t2 ht2 j hj y hy
        cases hys; cases ht2
        exact hw.ptr_lt _ rfl t rfl j hj y hy
    · rw [register_mix_fast xs cap idx rest t pf i vol xs[idx] hget]
      constructor
      · intro hx; cases hx
      · intro hx; cases hx
      · intro ys hys hh hmem
        cases hys
        have hlt := hw.free_lt _ rfl hh (List.mem_cons_of_mem idx hmem)
        simp only [List.length_set]
        omega
      · intro ys hys
        cases hys
        have h1 := hw.count _ rfl
        have hcard := Finset.card_insert_le i t
        simp only [tracker_card, Option.getD] at h1 ⊢
        simp only [List.length_cons] at h1
        simp only [List.length_set]
        omega
      · intro ys hys t2 ht2 j hj y hy
        cases hys; cases ht2
        by_cases hji : j = i
        · subst hji
          have hy2 : (if j = j then some (store_handle idx) else pf j) = some y := hy
          rw [if_pos rfl, Option.some_inj] at hy2
          subst hy2
          have hble := store_bits_le idx
          simp only [List.length_set]
          omega
        · have hj2 : j ∈ t := by
            rcases Finset.mem_insert.mp hj with hcase | hcase
            · exact absurd hcase hji
            · exact hcase
          have hy2 : pf j = some y := by simpa [hji] using hy
          have hlt := hw.ptr_lt _ rfl t rfl j hj2 y hy2
          simp only [List.length_set]
          omega

/-- Every reachable world satisfies the allocator invariant. -/
theorem reachable_inv (w : World) (hw : Reachable w) : ArenaInv w := by
  induction hw with
  | base pf => exact inv_pristine pf
  | step w w2 hr hs ih =>
    cases hs with
    | init_world h => exact inv_init _ ih h
    | register i v ha ht => exact inv_register _ i v ih ha ht
    | grower ha ht => exact inv_grower _ ih ht
    | unregister i => exact inv_unregister _ i ih
    | shutdown ha => exact inv_shutdown _ ih

/-- C5: at every observation point the free list never outgrows the arena, so
the unsigned subtraction in amt_gases cannot underflow: activeSlots equals
totalSlots minus the free-list length both in truncated and in exact integer
arithmetic, and activeSlots is at most totalSlots. -/
theorem active_le_total (w : World) (hw : Reachable w) (xs : List Mixture)
    (ha : w.arena = some xs) :
    w.freeList.length ≤ xs.length
    ∧ amt_gases w = tot_gases w - w.freeList.length
    ∧ amt_gases w ≤ tot_gases w
    ∧ (amt_gases w : Int) = (tot_gases w : Int) - (w.freeList.length : Int) := by
  have hinv := reachable_inv w hw
  have hcount := hinv.count xs ha
  have hle : w.freeList.length ≤ xs.length :=
    le_trans (Nat.le_add_right _ _) hcount
  have hamt : amt_gases w = xs.length - w.freeList.length := by
    simp [amt_gases, ha]
  have htot : tot_gases w = xs.length := by
    simp [tot_gases, ha]
  refine ⟨hle, ?_, ?_, ?_⟩
  · rw [hamt, htot]
  · rw [hamt, htot]; omega
  · rw [hamt, htot]; omega

/-- C5 witness: the freshly initialized world. -/
theorem active_le_total_witness :
    amt_gases (init_gas_mixtures (World.pristine fun _ => none))
      ≤ tot_gases (init_gas_mixtures (World.pristine fun _ => none))
    ∧ (init_gas_mixtures (World.pristine fun _ => none)).freeList.length
      ≤ ([] : List Mixture).length := by
  have hr : Reachable (init_gas_mixtures (World.pristine fun _ => none)) :=
    Reachable.step _ _ (Reachable.base _) (Step.init_world _ rfl)
  have h := active_le_total _ hr [] rfl
  exact ⟨h.2.2.1, h.1⟩

/-- A reachable world with a recycled handle in its free list: register one
mixture, then unregister it. -/
def reuse_world : World :=
  GasArena.unregister_mix
    (GasArena.register_mix (init_gas_mixtures (World.pristine fun _ => none))
      1 (some 5)).1 1

/-- C10: at every observation point every handle in the Free-List Channel is
a valid index strictly below the arena length, so the slot lookup succeeds
on it; hence a fast-path registration popping such a handle can never take
the panic path of its unchecked lookup. -/
theorem freelist_handles_valid (w : World) (hw : Reachable w) (xs : List Mixture)
    (ha : w.arena = some xs) :
    (∀ h ∈ w.freeList, h < xs.length ∧ (xs[h]?).isSome = true)
    ∧ (∀ (i : Nat) (v : Option Vol) (idx : Nat) (rest : List Nat),
        w.freeList = idx :: rest →
        (GasArena.register_mix w i v).2 ≠ Except.error Rt.panicked) := by
  have hinv := reachable_inv w hw
  constructor
  · intro h hmem
    have hlt := hinv.free_lt xs ha h hmem
    exact ⟨hlt, by rw [List.getElem?_eq_getElem hlt]; rfl⟩
  · intro i v idx rest hfl
    obtain ⟨a, cap, fl, tr, pf⟩ := w
    have ha2 : a = some xs := ha
    have hfl2 : fl = idx :: rest := hfl
    subst ha2
    subst hfl2
    rcases tr with _ | t
    · have := hinv.tracker_gone rfl
      simp at this
    · have hidx : idx < xs.length := hinv.free_lt xs rfl idx (by simp)
      rcases v with _ | vol
      · rw [register_mix_fast_none xs cap idx rest (some t) pf i hidx]
        simp
      · have hget : xs[idx]? = some xs[idx] := List.getElem?_eq_getElem hidx
        rw [register_mix_fast xs cap idx rest t pf i vol xs[idx] hget]
        simp

/-- C10 witness: after registering and unregistering one mixture the free
list holds handle 0, a valid index of the one-slot arena, and a fast-path
registration from that state does not panic. -/
theorem freelist_handles_valid_witness :
    (∀ h ∈ reuse_world.freeList,
      h < [Mixture.from_vol 5].length ∧ (([Mixture.from_vol 5])[h]?).isSome = true)
    ∧ (GasArena.register_mix reuse_world 2 (some 3)).2
        ≠ Except.error Rt.panicked := by
  have hr : Reachable reuse_world :=
    Reachable.step _ _
      (Reachable.step _ _
        (Reachable.step _ _ (Reachable.base _) (Step.init_world _ rfl))
        (Step.register _ 1 (some 5) rfl rfl))
      (Step.unregister _ 1)
  have h := freelist_handles_valid reuse_world hr [Mixture.from_vol 5] rfl
  exact ⟨h.1, h.2 2 (some 3) 0 [] rfl⟩
